import Mathlib

/-!
Verification development for `zim/gui/insertedobjects.py`: the inserted-object
widget framework (cursor handoff between a parent text view and an embedded
child text view, editability inheritance, and the fallback widget for unknown
object types).

The Python classes are embedded shallowly: a Gtk text buffer becomes a record
of its character content and caret offset, widget state becomes a record of the
fields the code reads and writes, signal emissions become explicit result
lists, and Python dicts (mutable, aliased) become references into an explicit
heap of association lists.
-/

namespace InsertedObjects

/-- Constants for grab-focus-cursor and release-focus-cursor
(`POSITION_BEGIN = 1` in the source). -/
def POSITION_BEGIN : Nat := 1

/-- Source `POSITION_END = 2` in the source. -/
def POSITION_END : Nat := 2

/-! ## Python dict heap

`UnkownObjectBuffer.object_attrib` stores a dict by reference and
`get_object_data` returns `self.object_attrib.copy()`; to give the
copy/aliasing distinction meaning, dicts live in an explicit heap and are
referred to by index. -/

/-- A Python dict of string keys and values, as an association list where the
first binding for a key is the current one. -/
abbrev Dict := List (String × String)

/-- Source `d.get(key)`: the value bound to `key`, or `None` when absent. -/
def dictGet : Dict → String → Option String
  | [], _ => none
  | (k, v) :: rest, key => if k = key then some v else dictGet rest key

/-- Source `d[key] = value`: overwrite the binding for `key` or add one. -/
def dictSet : Dict → String → String → Dict
  | [], key, value => [(key, value)]
  | (k, v) :: rest, key, value =>
      if k = key then (key, value) :: rest else (k, v) :: dictSet rest key value

/-- The heap of allocated dicts; a dict reference is an index into it. -/
abbrev PyHeap := List Dict

/-- Allocate a fresh dict holding `d`; returns the new heap and the reference. -/
def PyHeap.alloc (h : PyHeap) (d : Dict) : PyHeap × Nat :=
  (h ++ [d], h.length)

/-- Dereference: the dict a reference points to. -/
def PyHeap.get (h : PyHeap) (r : Nat) : Dict :=
  h.getD r []

/-- In-place mutation `h[r][key] = value` of the dict behind reference `r`. -/
def PyHeap.setItem (h : PyHeap) (r : Nat) (key value : String) : PyHeap :=
  h.set r (dictSet (h.getD r []) key value)

/-- Python `"%s" % arg` on a format string: substitute the first `%s`. -/
def substPercentS : List Char → List Char → List Char
  | [], _ => []
  | '%' :: 's' :: rest, arg => arg ++ rest
  | c :: rest, arg => c :: substPercentS rest arg

/-- Source `fmt % arg` for a single `%s` placeholder. -/
def percentS (fmt arg : String) : String :=
  String.mk (substPercentS fmt.data arg.data)

/-- Python string interpolation of an optional value: `None` prints as
`"None"`. -/
def pyStr : Option String → String
  | none => "None"
  | some s => s

/-- Python truthiness of an optional string: `None` and `""` are falsy. -/
def pyTruthy : Option String → Bool
  | none => false
  | some s => !s.isEmpty

/-! ## Text buffer -/

/-- A `Gtk.TextBuffer` as seen by this module: its character content and the
offset of the insert mark (the caret). Iterators are plain offsets. -/
structure Buffer where
  text : String
  cursor : Nat
deriving Repr, DecidableEq

/-- Source `buffer.get_bounds()`: offsets of the start and end iterators. -/
def Buffer.get_bounds (b : Buffer) : Nat × Nat :=
  (0, b.text.length)

/-- Source `buffer.place_cursor(iter)` for an iterator at offset `i`. -/
def Buffer.place_cursor (b : Buffer) (i : Nat) : Buffer :=
  { b with cursor := i }

/-- Source `iter.is_start()` for the iterator at the insert mark. -/
def Buffer.is_start (b : Buffer) : Bool :=
  b.cursor == 0

/-- Source `iter.is_end()` for the iterator at the insert mark. -/
def Buffer.is_end (b : Buffer) : Bool :=
  b.cursor == b.text.length

/-! ## Widget children

Only the structure the constructors build is modelled: the scrolled text view
added by `TextViewWidget.__init__` (identified by the text of the buffer it
displays), labels, and the `Gtk.HBox` built by `_add_load_plugin_bar`. -/

/-- A child packed into the plugin-bar `Gtk.HBox`. -/
inductive BoxChild where
  | label (text : String)
deriving Repr, DecidableEq

/-- A child packed into the widget's `vbox`. -/
inductive WidgetChild where
  | scrolledTextView (text : String)
  | label (text : String)
  | hbox (children : List BoxChild)
deriving Repr, DecidableEq

/-- Source `vbox.pack_start(child, ...)`: append at the end of the box. -/
def pack_start (v : List WidgetChild) (c : WidgetChild) : List WidgetChild :=
  v ++ [c]

/-- The net effect of `vbox.pack_start(child, ...)` immediately followed by
`vbox.reorder_child(child, 0)`: the freshly appended child moves to the front. -/
def pack_start_reorder0 (v : List WidgetChild) (c : WidgetChild) : List WidgetChild :=
  c :: v

/-! ## InsertedObjectWidget -/

/-- State of the base class `InsertedObjectWidget(Gtk.EventBox)`: the fields
its methods read and write. -/
structure InsertedObjectWidget where
  border_width : Nat
  has_cursor_field : Bool
  vbox : List WidgetChild
deriving Repr, DecidableEq

/-- Source `InsertedObjectWidget.__init__`: border width 3, `_has_cursor = False`,
an empty `vbox`. -/
def InsertedObjectWidget.init : InsertedObjectWidget :=
  { border_width := 3, has_cursor_field := false, vbox := [] }

/-- Source `has_cursor()`: returns `self._has_cursor`. -/
def InsertedObjectWidget.has_cursor (w : InsertedObjectWidget) : Bool :=
  w.has_cursor_field

/-- Source `set_has_cursor(has_cursor)`: sets `self._has_cursor`. -/
def InsertedObjectWidget.set_has_cursor (w : InsertedObjectWidget) (b : Bool) :
    InsertedObjectWidget :=
  { w with has_cursor_field := b }

/-! ## TextViewWidget -/

/-- The parent container as `TextViewWidget` sees it: a text view with an
`editable` property. -/
structure ParentTextView where
  editable : Bool
deriving Repr, DecidableEq

/-- State of `TextViewWidget`: the base-class state plus its buffer, the
child `Gtk.TextView`'s `editable` and `cursor_visible` properties, whether the
child view holds input focus, and the stored `parent_notify_h` handler id. -/
structure TextViewWidget extends InsertedObjectWidget where
  buffer : Buffer
  viewEditable : Bool
  viewCursorVisible : Bool
  viewFocused : Bool
  parent_notify_h : Option Nat
deriving Repr, DecidableEq

/-- Source `TextViewWidget.__init__(buffer)`: base init, `set_has_cursor(True)`,
create the scrolled text view on `buffer` with `set_editable(True)`, pack it
into `vbox`; `_init_signals` leaves `parent_notify_h = None`. A fresh
`Gtk.TextView` has `cursor_visible` true and no focus. -/
def TextViewWidget.init (buffer : Buffer) : TextViewWidget :=
  let base := InsertedObjectWidget.init
  let base := base.set_has_cursor true
  { toInsertedObjectWidget :=
      { base with vbox := pack_start base.vbox (WidgetChild.scrolledTextView buffer.text) }
    buffer := buffer
    viewEditable := true
    viewCursorVisible := true
    viewFocused := false
    parent_notify_h := none }

/-- Source `set_editable(editable)`: sets both `self.view.set_editable` and
`self.view.set_cursor_visible` to `editable`. -/
def TextViewWidget.set_editable (s : TextViewWidget) (editable : Bool) : TextViewWidget :=
  { s with viewEditable := editable, viewCursorVisible := editable }

/-- Source `on_parent_set(widget, old_parent)`: disconnect the stored notify handler
from the old parent if any, then, when a parent is present, inherit its
editability and connect to its `notify::editable`. `old_parent` and the
current parent `self.get_parent()` are passed explicitly. -/
def TextViewWidget.on_parent_set (s : TextViewWidget)
    (old_parent parent : Option ParentTextView) : TextViewWidget :=
  let s1 := if old_parent.isSome && s.parent_notify_h.isSome then
      { s with parent_notify_h := none }
    else s
  match parent with
  | some p =>
      let s2 := s1.set_editable p.editable
      { s2 with parent_notify_h := some 1 }
  | none => s1

/-- Source `on_parent_notify(widget, prop, *args)`: re-apply
`self.get_parent().get_editable()`; the current parent is passed explicitly. -/
def TextViewWidget.on_parent_notify (s : TextViewWidget) (parent : ParentTextView) :
    TextViewWidget :=
  s.set_editable parent.editable

/-- Source `do_grab_cursor(position)`: place the buffer caret at the begin bound for
`POSITION_BEGIN`, else at the end bound, then `self.view.grab_focus()`. -/
def TextViewWidget.do_grab_cursor (s : TextViewWidget) (position : Nat) : TextViewWidget :=
  let bounds := s.buffer.get_bounds
  let buffer :=
    if position = POSITION_BEGIN then s.buffer.place_cursor bounds.1
    else s.buffer.place_cursor bounds.2
  { s with buffer := buffer, viewFocused := true }

/-- Observable outcome of one run of the `on_move_cursor` handler: the
positions passed to `release_cursor` (hence emitted with the
`release-cursor` signal), and the handler's Python return value. -/
structure MoveCursorResult where
  emitted : List Nat
  returned : Option Bool
deriving Repr, DecidableEq

/-- Source `on_move_cursor(view, step_size, count, extend_selection)`: when the
insert iterator is at the buffer start or end and no selection is being
extended, release the cursor toward `POSITION_BEGIN` on a backward move from
the start or `POSITION_END` on a forward move from the end; every path returns
`None`. `view.get_buffer()` is the widget's buffer, passed directly. -/
def TextViewWidget.on_move_cursor (buffer : Buffer) (step_size : Nat) (count : Int)
    (extend_selection : Bool) : MoveCursorResult :=
  if (buffer.is_start || buffer.is_end) && !extend_selection then
    if buffer.is_start && decide (count < 0) then
      { emitted := [POSITION_BEGIN], returned := none }
    else if buffer.is_end && decide (count > 0) then
      { emitted := [POSITION_END], returned := none }
    else
      { emitted := [], returned := none }
  else
    { emitted := [], returned := none }

/-! ## UnkownObjectWidget (class name as spelled in the source) -/

/-- The tuple returned by `ObjectManager.find_plugin`: `(key, name,
activatable, klass)`. -/
structure Plugin where
  key : String
  name : String
  activatable : Bool
  klass : String
deriving Repr, DecidableEq

/-- State of `UnkownObjectBuffer(Gtk.TextBuffer)`: the stored dict reference
`object_attrib` and the buffer content set by `set_text(data)`. -/
structure UnkownObjectBuffer where
  object_attrib : Nat
  text : String
  cursor : Nat
deriving Repr, DecidableEq

/-- Source `UnkownObjectBuffer.__init__(attrib, data)`: store the attrib reference
as-is (no copy) and `set_text(data)`, which leaves the insert mark at the end
of the inserted text. -/
def UnkownObjectBuffer.init (attrib : Nat) (data : String) : UnkownObjectBuffer :=
  { object_attrib := attrib, text := data, cursor := data.length }

/-- The `Gtk.TextBuffer` view of an `UnkownObjectBuffer`. -/
def UnkownObjectBuffer.toBuffer (b : UnkownObjectBuffer) : Buffer :=
  { text := b.text, cursor := b.cursor }

/-- Source `get_object_data()`: `attrib = self.object_attrib.copy()` allocates a
fresh dict with the same bindings; `data = start.get_text(end)` over the
bounds is the whole buffer content. Returns the updated heap, the reference to
the copy, and the data. -/
def UnkownObjectBuffer.get_object_data (h : PyHeap) (b : UnkownObjectBuffer) :
    PyHeap × Nat × String :=
  let copy := PyHeap.alloc h (PyHeap.get h b.object_attrib)
  (copy.1, copy.2, b.text)

/-- Source `UnkownObjectWidget.__init__(buffer)`: `TextViewWidget` init on the
buffer, then branch on `buffer.object_attrib.get('type')`. `find_plugin` is
`ObjectManager.find_plugin`, an external collaborator passed as an oracle; it
is consulted only when the type attribute is truthy. -/
def UnkownObjectWidget.init (h : PyHeap) (find_plugin : String → Option Plugin)
    (buffer : UnkownObjectBuffer) : TextViewWidget :=
  let s := TextViewWidget.init buffer.toBuffer
  let type := dictGet (PyHeap.get h buffer.object_attrib) "type"
  let plugin := if pyTruthy type then find_plugin (type.getD "") else none
  match plugin with
  | some p =>
      -- _add_load_plugin_bar(plugin)
      let label := BoxChild.label
        (percentS "Plugin %s is required to display this object." p.name)
      { s with vbox := pack_start_reorder0 s.vbox (WidgetChild.hbox [label]) }
  | none =>
      let label := WidgetChild.label
        (percentS "No plugin available to display objects of type: %s" (pyStr type))
      { s with vbox := pack_start_reorder0 s.vbox label }

/-! ## UnknownInsertedObject -/

/-- Source `UnknownInsertedObject.model_from_data(attrib, data)`: build an
`UnkownObjectBuffer`. -/
def UnknownInsertedObject.model_from_data (attrib : Nat) (data : String) :
    UnkownObjectBuffer :=
  UnkownObjectBuffer.init attrib data

/-- Source `UnknownInsertedObject.data_from_model(buffer)`: delegate to
`buffer.get_object_data()`. -/
def UnknownInsertedObject.data_from_model (h : PyHeap) (buffer : UnkownObjectBuffer) :
    PyHeap × Nat × String :=
  buffer.get_object_data h

/-- Source `UnknownInsertedObject.create_widget(buffer)`: build an
`UnkownObjectWidget`. -/
def UnknownInsertedObject.create_widget (h : PyHeap)
    (find_plugin : String → Option Plugin) (buffer : UnkownObjectBuffer) :
    TextViewWidget :=
  UnkownObjectWidget.init h find_plugin buffer

/-! ## Helper lemmas on the dict heap -/

theorem getD_concat_length (l : List Dict) (x d : Dict) :
    (l ++ [x]).getD l.length d = x := by
  induction l with
  | nil => rfl
  | cons a l ih =>
      rw [List.cons_append, List.length_cons, List.getD_cons_succ]
      exact ih

theorem getD_append_left (l l' : List Dict) (n : Nat) (d : Dict) (hn : n < l.length) :
    (l ++ l').getD n d = l.getD n d := by
  induction l generalizing n with
  | nil => exact absurd hn (Nat.not_lt_zero n)
  | cons a l ih =>
      cases n with
      | zero => rfl
      | succ m => simpa [List.getD] using ih m (Nat.lt_of_succ_lt_succ hn)

theorem getD_set_ne (l : List Dict) (j : Nat) (x : Dict) (i : Nat) (d : Dict)
    (hij : i ≠ j) : (l.set j x).getD i d = l.getD i d := by
  induction l generalizing i j with
  | nil => rfl
  | cons a l ih =>
      cases j with
      | zero =>
          cases i with
          | zero => exact absurd rfl hij
          | succ m => simp [List.getD]
      | succ k =>
          cases i with
          | zero => simp [List.getD]
          | succ m =>
              simpa [List.getD] using ih k m (fun hmk => hij (by omega))

end InsertedObjects

namespace InsertedObjects

/-! ## Theorems for the claims -/

/-- Claim C1: `on_move_cursor` emits `release-cursor` iff no selection is
being extended and either the caret is at the buffer start with a backward
movement (emitting `POSITION_BEGIN`) or at the buffer end with a forward
movement (emitting `POSITION_END`). -/
theorem on_move_cursor_release_iff (buffer : Buffer) (step_size : Nat) (count : Int)
    (extend_selection : Bool) :
    ((TextViewWidget.on_move_cursor buffer step_size count extend_selection).emitted ≠ []
      ↔ extend_selection = false ∧
          ((buffer.is_start = true ∧ count < 0) ∨ (buffer.is_end = true ∧ count > 0)))
    ∧ (extend_selection = false → buffer.is_start = true → count < 0 →
        (TextViewWidget.on_move_cursor buffer step_size count extend_selection).emitted
          = [POSITION_BEGIN])
    ∧ (extend_selection = false → buffer.is_end = true → count > 0 →
        (TextViewWidget.on_move_cursor buffer step_size count extend_selection).emitted
          = [POSITION_END]) := by
  rcases lt_trichotomy count 0 with hc | hc | hc
  · cases hs : buffer.is_start <;> cases he : buffer.is_end <;>
      cases extend_selection <;>
      simp [TextViewWidget.on_move_cursor, hs, he, hc, show ¬(0:Int) < count by omega]
  · subst hc
    cases hs : buffer.is_start <;> cases he : buffer.is_end <;>
      cases extend_selection <;> simp [TextViewWidget.on_move_cursor, hs, he]
  · cases hs : buffer.is_start <;> cases he : buffer.is_end <;>
      cases extend_selection <;>
      simp [TextViewWidget.on_move_cursor, hs, he, hc, show ¬count < 0 by omega]

/-- Witness for C1: on a two-character buffer with the caret at the start, a
backward move with no selection emits `POSITION_BEGIN`. -/
theorem on_move_cursor_release_iff_witness :
    (TextViewWidget.on_move_cursor ⟨"ab", 0⟩ 0 (-1) false).emitted = [POSITION_BEGIN] :=
  (on_move_cursor_release_iff ⟨"ab", 0⟩ 0 (-1) false).2.1 rfl (by decide) (by decide)

/-- Claim C6: with `extend_selection` true, `on_move_cursor` never emits
`release-cursor`, whatever the caret position and movement direction. -/
theorem on_move_cursor_no_release_when_extending (buffer : Buffer) (step_size : Nat)
    (count : Int) :
    (TextViewWidget.on_move_cursor buffer step_size count true).emitted = [] := by
  cases hs : buffer.is_start <;> cases he : buffer.is_end <;>
    simp_all [TextViewWidget.on_move_cursor]

/-- Claim C7: `on_move_cursor` returns `None` on every path, including the
emitting ones, so the default handling of the movement always proceeds. -/
theorem on_move_cursor_returns_none (buffer : Buffer) (step_size : Nat) (count : Int)
    (extend_selection : Bool) :
    (TextViewWidget.on_move_cursor buffer step_size count extend_selection).returned
      = none := by
  simp only [TextViewWidget.on_move_cursor]
  split
  · split
    · rfl
    · split <;> rfl
  · rfl

/-- Claim C9: on an empty buffer (start and end coincide), with no selection:
a backward move emits `POSITION_BEGIN` (the `is_start` branch is tested
first, so it wins although the caret is also at the end), a forward move
emits `POSITION_END`, and a zero move emits nothing. -/
theorem on_move_cursor_empty_buffer (b : Buffer) (step_size : Nat) (count : Int)
    (hb : b.text = "") (hc : b.cursor = 0) :
    (count < 0 →
      (TextViewWidget.on_move_cursor b step_size count false).emitted = [POSITION_BEGIN])
    ∧ (count > 0 →
      (TextViewWidget.on_move_cursor b step_size count false).emitted = [POSITION_END])
    ∧ (count = 0 →
      (TextViewWidget.on_move_cursor b step_size count false).emitted = []) := by
  have hs : b.is_start = true := by simp [Buffer.is_start, hc]
  have he : b.is_end = true := by simp [Buffer.is_end, hb, hc]
  refine ⟨fun hneg => ?_, fun hpos => ?_, fun h0 => ?_⟩
  · simp [TextViewWidget.on_move_cursor, hs, he, hneg]
  · simp [TextViewWidget.on_move_cursor, hs, he, hpos, show ¬count < 0 by omega]
  · subst h0
    simp [TextViewWidget.on_move_cursor, hs, he]

/-- Witness for C9: on the empty buffer a backward move emits
`POSITION_BEGIN`, a forward move `POSITION_END`, a zero move nothing. -/
theorem on_move_cursor_empty_buffer_witness :
    (TextViewWidget.on_move_cursor ⟨"", 0⟩ 0 (-1) false).emitted = [POSITION_BEGIN]
    ∧ (TextViewWidget.on_move_cursor ⟨"", 0⟩ 0 1 false).emitted = [POSITION_END]
    ∧ (TextViewWidget.on_move_cursor ⟨"", 0⟩ 0 0 false).emitted = [] :=
  ⟨(on_move_cursor_empty_buffer ⟨"", 0⟩ 0 (-1) rfl rfl).1 (by decide),
   (on_move_cursor_empty_buffer ⟨"", 0⟩ 0 1 rfl rfl).2.1 (by decide),
   (on_move_cursor_empty_buffer ⟨"", 0⟩ 0 0 rfl rfl).2.2 rfl⟩

/-- Claim C2: `do_grab_cursor` places the caret at the start of the buffer
for `POSITION_BEGIN` and at its end for `POSITION_END`, and in both cases
gives input focus to the child view. -/
theorem do_grab_cursor_places_caret (s : TextViewWidget) :
    ((s.do_grab_cursor POSITION_BEGIN).buffer.cursor = 0
      ∧ (s.do_grab_cursor POSITION_BEGIN).viewFocused = true)
    ∧ ((s.do_grab_cursor POSITION_END).buffer.cursor = s.buffer.text.length
      ∧ (s.do_grab_cursor POSITION_END).viewFocused = true) := by
  simp [TextViewWidget.do_grab_cursor, Buffer.get_bounds, Buffer.place_cursor,
    POSITION_BEGIN, POSITION_END]

/-- Claim C3: receiving a non-null parent (`on_parent_set`) and a change of
the parent's editable property (`on_parent_notify`) both set the child view's
editable flag and cursor-visible flag to the parent's editability. -/
theorem child_editability_follows_parent (s : TextViewWidget)
    (old_parent : Option ParentTextView) (p : ParentTextView) :
    ((s.on_parent_set old_parent (some p)).viewEditable = p.editable
      ∧ (s.on_parent_set old_parent (some p)).viewCursorVisible = p.editable)
    ∧ ((s.on_parent_notify p).viewEditable = p.editable
      ∧ (s.on_parent_notify p).viewCursorVisible = p.editable) := by
  by_cases hcond : (old_parent.isSome && s.parent_notify_h.isSome) = true <;>
    simp [TextViewWidget.on_parent_set, TextViewWidget.on_parent_notify,
      TextViewWidget.set_editable, hcond]

/-- Claim C10: a fresh base `InsertedObjectWidget` has `has_cursor() = False`;
every `TextViewWidget` and every `UnkownObjectWidget` has `has_cursor() =
True` from construction; `has_cursor` returns the last value passed to
`set_has_cursor`. -/
theorem has_cursor_spec :
    InsertedObjectWidget.init.has_cursor = false
    ∧ (∀ b : Buffer, (TextViewWidget.init b).toInsertedObjectWidget.has_cursor = true)
    ∧ (∀ (h : PyHeap) (fp : String → Option Plugin) (ub : UnkownObjectBuffer),
        (UnkownObjectWidget.init h fp ub).toInsertedObjectWidget.has_cursor = true)
    ∧ (∀ (w : InsertedObjectWidget) (b : Bool), (w.set_has_cursor b).has_cursor = b) := by
  refine ⟨rfl, fun b => rfl, fun h fp ub => ?_, fun w b => rfl⟩
  simp only [UnkownObjectWidget.init]
  split <;> rfl

/-- Claim C4: when the type attribute is absent or no plugin is found for it,
the widget's vbox is the fallback label (first) followed by the text view
showing the object's raw text. -/
theorem unknown_widget_fallback (h : PyHeap) (fp : String → Option Plugin)
    (ub : UnkownObjectBuffer)
    (hnone : ∀ t, dictGet (PyHeap.get h ub.object_attrib) "type" = some t → fp t = none) :
    (UnkownObjectWidget.init h fp ub).vbox =
      [WidgetChild.label (percentS "No plugin available to display objects of type: %s"
          (pyStr (dictGet (PyHeap.get h ub.object_attrib) "type"))),
       WidgetChild.scrolledTextView ub.text] := by
  cases htype : dictGet (PyHeap.get h ub.object_attrib) "type" with
  | none =>
      simp [UnkownObjectWidget.init, htype, pyTruthy, TextViewWidget.init,
        InsertedObjectWidget.init, InsertedObjectWidget.set_has_cursor,
        pack_start, pack_start_reorder0, UnkownObjectBuffer.toBuffer]
  | some t =>
      have hfp := hnone t htype
      by_cases ht : t.isEmpty <;>
        simp [UnkownObjectWidget.init, htype, pyTruthy, ht, hfp, TextViewWidget.init,
          InsertedObjectWidget.init, InsertedObjectWidget.set_has_cursor,
          pack_start, pack_start_reorder0, UnkownObjectBuffer.toBuffer]

/-- Witness for C4: with a `type` attribute no plugin handles, the vbox is
the fallback label naming the type, then the raw text view. -/
theorem unknown_widget_fallback_witness :
    (UnkownObjectWidget.init [[("type", "foo")]] (fun _ => none) ⟨0, "data", 0⟩).vbox =
      [WidgetChild.label "No plugin available to display objects of type: foo",
       WidgetChild.scrolledTextView "data"] :=
  unknown_widget_fallback [[("type", "foo")]] (fun _ => none) ⟨0, "data", 0⟩
    (fun _ _ => rfl)

/-- Claim C5: when a plugin is found for the (truthy) type, the vbox starts
with a bar that contains only the label naming the required plugin — no
activation button — followed by the text view. -/
theorem unknown_widget_plugin_bar (h : PyHeap) (fp : String → Option Plugin)
    (ub : UnkownObjectBuffer) (t : String) (p : Plugin)
    (htype : dictGet (PyHeap.get h ub.object_attrib) "type" = some t)
    (ht : t ≠ "") (hfp : fp t = some p) :
    (UnkownObjectWidget.init h fp ub).vbox =
      [WidgetChild.hbox
        [BoxChild.label (percentS "Plugin %s is required to display this object." p.name)],
       WidgetChild.scrolledTextView ub.text] := by
  have ht' : t.isEmpty = false := by
    cases hemp : t.isEmpty
    · rfl
    · exact absurd ((String.isEmpty_iff t).mp hemp) ht
  simp [UnkownObjectWidget.init, htype, pyTruthy, ht', hfp, TextViewWidget.init,
    InsertedObjectWidget.init, InsertedObjectWidget.set_has_cursor,
    pack_start, pack_start_reorder0, UnkownObjectBuffer.toBuffer]

/-- Witness for C5: with `type = "foo"` handled by plugin `Foo`, the vbox is
the plugin bar (a single label) then the raw text view. -/
theorem unknown_widget_plugin_bar_witness :
    (UnkownObjectWidget.init [[("type", "foo")]]
        (fun s => if s = "foo" then some ⟨"k", "Foo", true, "K"⟩ else none)
        ⟨0, "data", 0⟩).vbox =
      [WidgetChild.hbox [BoxChild.label "Plugin Foo is required to display this object."],
       WidgetChild.scrolledTextView "data"] :=
  unknown_widget_plugin_bar [[("type", "foo")]]
    (fun s => if s = "foo" then some ⟨"k", "Foo", true, "K"⟩ else none)
    ⟨0, "data", 0⟩ "foo" ⟨"k", "Foo", true, "K"⟩ rfl (by decide) rfl

/-- Claim C8: `model_from_data` then `data_from_model` returns the stored
data and an attrib equal to the stored one; the returned attrib is a fresh
copy, so mutating it leaves the buffer's `object_attrib` dict unchanged. -/
theorem unknown_object_roundtrip (h : PyHeap) (attrib : Nat) (data : String)
    (hlt : attrib < h.length) :
    (UnknownInsertedObject.data_from_model h
        (UnknownInsertedObject.model_from_data attrib data)).2.2 = data
    ∧ (UnknownInsertedObject.model_from_data attrib data).object_attrib = attrib
    ∧ PyHeap.get
        (UnknownInsertedObject.data_from_model h
          (UnknownInsertedObject.model_from_data attrib data)).1
        (UnknownInsertedObject.data_from_model h
          (UnknownInsertedObject.model_from_data attrib data)).2.1
      = PyHeap.get h attrib
    ∧ (UnknownInsertedObject.data_from_model h
        (UnknownInsertedObject.model_from_data attrib data)).2.1 ≠ attrib
    ∧ (∀ key value,
        PyHeap.get
          (PyHeap.setItem
            (UnknownInsertedObject.data_from_model h
              (UnknownInsertedObject.model_from_data attrib data)).1
            (UnknownInsertedObject.data_from_model h
              (UnknownInsertedObject.model_from_data attrib data)).2.1
            key value)
          attrib
        = PyHeap.get
            (UnknownInsertedObject.data_from_model h
              (UnknownInsertedObject.model_from_data attrib data)).1
            attrib) := by
  refine ⟨rfl, rfl, ?_, ?_, ?_⟩
  · simp only [UnknownInsertedObject.data_from_model, UnknownInsertedObject.model_from_data,
      UnkownObjectBuffer.get_object_data, UnkownObjectBuffer.init, PyHeap.alloc,
      PyHeap.get]
    exact getD_concat_length h (h.getD attrib []) []
  · simp [UnknownInsertedObject.data_from_model, UnknownInsertedObject.model_from_data,
      UnkownObjectBuffer.get_object_data, UnkownObjectBuffer.init, PyHeap.alloc]
    omega
  · intro key value
    simp only [UnknownInsertedObject.data_from_model, UnknownInsertedObject.model_from_data,
      UnkownObjectBuffer.get_object_data, UnkownObjectBuffer.init, PyHeap.alloc,
      PyHeap.get, PyHeap.setItem]
    exact getD_set_ne _ _ _ _ _ (by omega)

/-- Witness for C8: on a one-dict heap, the round trip returns the data, and
mutating the returned copy leaves the dict behind the buffer's reference
unchanged. -/
theorem unknown_object_roundtrip_witness :
    (UnknownInsertedObject.data_from_model [[("a", "b")]]
        (UnknownInsertedObject.model_from_data 0 "xy")).2.2 = "xy"
    ∧ PyHeap.get
        (PyHeap.setItem
          (UnknownInsertedObject.data_from_model [[("a", "b")]]
            (UnknownInsertedObject.model_from_data 0 "xy")).1
          (UnknownInsertedObject.data_from_model [[("a", "b")]]
            (UnknownInsertedObject.model_from_data 0 "xy")).2.1
          "k" "v")
        0
      = PyHeap.get
          (UnknownInsertedObject.data_from_model [[("a", "b")]]
            (UnknownInsertedObject.model_from_data 0 "xy")).1
          0 :=
  ⟨(unknown_object_roundtrip [[("a", "b")]] 0 "xy" (by decide)).1,
   (unknown_object_roundtrip [[("a", "b")]] 0 "xy" (by decide)).2.2.2.2 "k" "v"⟩

end InsertedObjects
